import Mathlib

/-!
Verification of the worker-pool backend selector and the synckit helper
worker of the recheck package, as a shallow embedding in Lean 4.

The embedded code:

* `src/unnamed/part_000` — `createWorkerPool`, the platform backend
  selector.  It reads the environment variable `RECHECK_PLATFORM`
  (defaulting to `"auto"` when the variable is unset) and switches on it:
  the `"auto"` case has an empty body and falls through to the `"node"`
  case, which returns the thread-worker pool; `"browser"` returns the
  web-worker pool; any other value throws
  `invalid platform: ${RECHECK_PLATFORM}`.

* `src/packages/recheck/src/core/backend/synckit/synckit.worker.ts` —
  the synchronous bridge's helper worker.  Its whole body is a single
  top-level call `runAsWorker(async (...args) => { return check(...args) })`,
  registering exactly one handler that forwards its arguments
  positionally to the external `check` capability.
-/

namespace Recheck

/-- A concrete worker pool, carrying the worker payload reference it was
constructed with (`workerPath` in the source; optional there, so optional
here). -/
inductive WorkerPool where
  | threadWorkerPool : Option String → WorkerPool
  | webWorkerPool : Option String → WorkerPool
deriving DecidableEq, Repr

/-- The backend kind of a pool, forgetting the worker path. -/
inductive BackendKind where
  | thread : BackendKind
  | web : BackendKind
deriving DecidableEq, Repr

/-- `createWorkerPool` from `../thread-worker/index.js`: constructs the pool
backed by OS-level worker threads, recording the worker path it was given. -/
def createThreadWorkerPool (workerPath : Option String) : WorkerPool :=
  .threadWorkerPool workerPath

/-- `createWorkerPool` from `../web-worker/index.js`: constructs the pool
backed by browser message-passing workers, recording the worker path it was
given. -/
def createWebWorkerPool (workerPath : Option String) : WorkerPool :=
  .webWorkerPool workerPath

/-- The backend kind of a `WorkerPool`. -/
def WorkerPool.backendKind : WorkerPool → BackendKind
  | .threadWorkerPool _ => .thread
  | .webWorkerPool _ => .web

/-- The worker payload reference a `WorkerPool` was constructed with. -/
def WorkerPool.workerPath : WorkerPool → Option String
  | .threadWorkerPool p => p
  | .webWorkerPool p => p

/-- The process-wide runtime state `createWorkerPool` runs in: the
`RECHECK_PLATFORM` environment variable (`none` when unset), and the two
runtime capabilities the spec's `auto` resolution talks about — whether
OS worker-thread support is present, and whether a browser worker global is
present.  The source function only ever reads the environment variable;
the capability flags are carried so that independence from them can be
stated. -/
structure RuntimeEnv where
  RECHECK_PLATFORM : Option String
  hasWorkerThreads : Bool
  hasBrowserWorkerGlobal : Bool
deriving DecidableEq, Repr

/-- `createWorkerPool` from `src/unnamed/part_000`.  The source reads
`process.env["RECHECK_PLATFORM"] ?? "auto"` afresh on every call and
switches on it; the `case "auto"` block is empty and falls through to
`case "node"`, so both return the thread-worker pool.  A JavaScript switch
tests the cases in order with strict equality, embedded here as a chain of
string-equality tests; the thrown `Error` becomes the `Except.error` side. -/
def createWorkerPool (env : RuntimeEnv) (workerPath : Option String) :
    Except String WorkerPool :=
  let RECHECK_PLATFORM := env.RECHECK_PLATFORM.getD "auto"
  if RECHECK_PLATFORM = "auto" then
    -- empty case body in the source: falls through to the "node" case
    .ok (createThreadWorkerPool workerPath)
  else if RECHECK_PLATFORM = "node" then
    .ok (createThreadWorkerPool workerPath)
  else if RECHECK_PLATFORM = "browser" then
    .ok (createWebWorkerPool workerPath)
  else
    .error ("invalid platform: " ++ RECHECK_PLATFORM)

/-- An error raised by the Checker capability: the spec requires the
message and the kind to survive propagation, so both are modelled. -/
structure CheckerError where
  message : String
  kind : String
deriving DecidableEq, Repr

/-- The outcome of one Checker call: a result value or a domain error. -/
abbrev CheckResult := Except CheckerError String

/-- The external Checker capability, an opaque callable taking its
arguments positionally (the source spreads `...args` into it). -/
abbrev Checker := List String → CheckResult

/-- The handler the synckit helper worker registers:
`async (...args) => { return check(...args) }` from `synckit.worker.ts`.
The `async` wrapper awaits the promise returned by `check` and re-raises
any rejection unchanged; with promises flattened away this is exactly
forwarding the argument list to `check`. -/
def synckitWorkerHandler (check : Checker) (args : List String) : CheckResult :=
  check args

/-- The list of handlers the helper worker module installs at load time:
its whole body is one `runAsWorker(...)` call, so exactly one handler. -/
def synckitWorkerInstalledHandlers (check : Checker) :
    List (List String → CheckResult) :=
  [fun args => synckitWorkerHandler check args]

/-- Modelled from the spec: the synckit transport (`runAsWorker` on the
helper side, `callSync` on the calling side) is an external library, not
code of this repository.  Per the spec's Synchronous Bridge contract, the
caller writes the request into the shared channel, the helper runs its
registered handler on the arguments, and the serialized result — or the
error, re-thrown with message and kind preserved — is delivered back to
the blocking caller. -/
def callSync (handler : List String → CheckResult) (args : List String) :
    CheckResult :=
  handler args

/-- A sample Checker capability used to witness the helper-worker theorems. -/
def checkSample : Checker := fun args => .ok (String.intercalate "," args)

/-- C1 counterexample: in a runtime with neither OS worker-thread support
nor a browser worker global, the `"auto"` configuration does not fail fast
with a descriptive error; it silently yields the thread-worker pool. -/
theorem createWorkerPool_auto_no_capability_defaults :
    createWorkerPool ⟨some "auto", false, false⟩ none =
      .ok (createThreadWorkerPool none) := rfl

/-- C1 (amended): for the configuration value `auto`, backend resolution
deterministically chooses exactly one concrete backend — always the
thread-worker pool, by falling through to the `node` case — without probing
runtime capabilities, and it never fails for `auto`, even when no suitable
backend capability is present in the runtime. -/
theorem createWorkerPool_auto_always_thread (t b : Bool) (w : Option String) :
    createWorkerPool ⟨some "auto", t, b⟩ w = .ok (createThreadWorkerPool w) := rfl

/-- C2 counterexample: resolution is re-read from the environment on every
call, not memoized once per process: a first call observing
`RECHECK_PLATFORM = "node"` and a second call after the environment changed
to `"browser"` return pools of different backend kinds in one process run. -/
theorem createWorkerPool_not_memoized :
    createWorkerPool ⟨some "node", true, true⟩ none = .ok (createThreadWorkerPool none) ∧
    createWorkerPool ⟨some "browser", true, true⟩ none = .ok (createWebWorkerPool none) ∧
    (createThreadWorkerPool none).backendKind ≠ (createWebWorkerPool none).backendKind := by
  refine ⟨rfl, rfl, ?_⟩
  decide

/-- C2 (amended): backend resolution is deterministic per call — two
invocations observing the same `RECHECK_PLATFORM` value yield identical
results for the same worker path — but the configuration is resolved afresh
on every invocation rather than cached, so invocations observing different
environment values may yield different backends. -/
theorem createWorkerPool_deterministic_in_env (e1 e2 : RuntimeEnv) (w : Option String)
    (h : e1.RECHECK_PLATFORM = e2.RECHECK_PLATFORM) :
    createWorkerPool e1 w = createWorkerPool e2 w := by
  simp only [createWorkerPool, h]

/-- C2 witness: the amended determinism at a concrete configuration. -/
theorem createWorkerPool_deterministic_in_env_witness :
    createWorkerPool ⟨some "node", true, false⟩ none =
      createWorkerPool ⟨some "node", false, true⟩ none :=
  createWorkerPool_deterministic_in_env ⟨some "node", true, false⟩
    ⟨some "node", false, true⟩ none rfl

/-- C3: `createWorkerPool` throws if and only if the resolved platform
configuration value lies outside `{"auto", "node", "browser"}`; when it
throws no pool is constructed, and the error message names the offending
value. -/
theorem createWorkerPool_error_iff_invalid (env : RuntimeEnv) (w : Option String) :
    ((∃ msg, createWorkerPool env w = .error msg) ↔
      (env.RECHECK_PLATFORM.getD "auto") ∉ (["auto", "node", "browser"] : List String)) ∧
    (∀ msg, createWorkerPool env w = .error msg →
      msg = "invalid platform: " ++ env.RECHECK_PLATFORM.getD "auto") := by
  simp only [createWorkerPool]
  split_ifs with h1 h2 h3 <;> simp_all

/-- C3 witness: at the concrete value `"bogus-backend"` the selector
throws, naming the value in the error message. -/
theorem createWorkerPool_error_iff_invalid_witness :
    ∃ msg, createWorkerPool ⟨some "bogus-backend", true, true⟩ none = .error msg ∧
      msg = "invalid platform: bogus-backend" := by
  have h := createWorkerPool_error_iff_invalid ⟨some "bogus-backend", true, true⟩ none
  obtain ⟨msg, hmsg⟩ := h.1.mpr (by decide)
  refine ⟨msg, hmsg, ?_⟩
  rw [h.2 msg hmsg]
  decide

/-- C4: for every worker path and every capability state, the explicit
platform `"node"` yields the thread-worker pool, the explicit `"browser"`
yields the web-worker pool, and the two backends are never equal. -/
theorem createWorkerPool_node_browser (w : Option String) (t b t' b' : Bool) :
    createWorkerPool ⟨some "node", t, b⟩ w = .ok (createThreadWorkerPool w) ∧
    createWorkerPool ⟨some "browser", t', b'⟩ w = .ok (createWebWorkerPool w) ∧
    createThreadWorkerPool w ≠ createWebWorkerPool w := by
  refine ⟨rfl, rfl, ?_⟩
  simp [createThreadWorkerPool, createWebWorkerPool]

/-- C5: the synchronous bridge's helper has the same call semantics as the
asynchronous path: for every argument list, `callSync` through the helper's
registered handler invokes the same Checker capability on the same
arguments, and returns exactly the value the direct asynchronous call to
the Checker resolves to. -/
theorem callSync_eq_async (check : Checker) (args : List String) :
    callSync (synckitWorkerHandler check) args = check args := rfl

/-- C6: a domain error raised by the Checker passes through the helper
worker unchanged — neither caught, wrapped, nor reinterpreted — so the
caller observes exactly the error a direct call to the Checker produces. -/
theorem synckitWorkerHandler_error_passthrough (check : Checker) (args : List String)
    (e : CheckerError) (h : check args = .error e) :
    synckitWorkerHandler check args = .error e ∧
    callSync (synckitWorkerHandler check) args = .error e := ⟨h, h⟩

/-- C6 witness: a Checker that raises a concrete domain error is observed
unchanged through the helper and through the synchronous bridge. -/
theorem synckitWorkerHandler_error_passthrough_witness :
    synckitWorkerHandler (fun _ => .error ⟨"boom", "CheckerError"⟩) ["(a)*"] =
      .error ⟨"boom", "CheckerError"⟩ ∧
    callSync (synckitWorkerHandler (fun _ => .error ⟨"boom", "CheckerError"⟩)) ["(a)*"] =
      .error ⟨"boom", "CheckerError"⟩ :=
  synckitWorkerHandler_error_passthrough (fun _ => .error ⟨"boom", "CheckerError"⟩)
    ["(a)*"] ⟨"boom", "CheckerError"⟩ rfl

/-- C7: with the `RECHECK_PLATFORM` environment variable unset,
`createWorkerPool` behaves exactly as with the explicit value `"auto"`. -/
theorem createWorkerPool_unset_eq_auto (t b : Bool) (w : Option String) :
    createWorkerPool ⟨none, t, b⟩ w = createWorkerPool ⟨some "auto", t, b⟩ w := rfl

/-- C8: for every recognized platform value, the worker path is passed
unchanged to whichever concrete pool backend is constructed. -/
theorem createWorkerPool_preserves_workerPath (v : String)
    (hv : v = "auto" ∨ v = "node" ∨ v = "browser") (t b : Bool) (w : Option String) :
    ∃ pool, createWorkerPool ⟨some v, t, b⟩ w = .ok pool ∧ pool.workerPath = w := by
  rcases hv with h | h | h <;> subst h
  · exact ⟨createThreadWorkerPool w, rfl, rfl⟩
  · exact ⟨createThreadWorkerPool w, rfl, rfl⟩
  · exact ⟨createWebWorkerPool w, rfl, rfl⟩

/-- C8 witness: the concrete worker path survives construction at the
`"browser"` platform value. -/
theorem createWorkerPool_preserves_workerPath_witness :
    ∃ pool, createWorkerPool ⟨some "browser", true, false⟩ (some "worker.js") = .ok pool ∧
      pool.workerPath = some "worker.js" :=
  createWorkerPool_preserves_workerPath "browser" (Or.inr (Or.inr rfl)) true false
    (some "worker.js")

/-- C9: `"auto"` resolves identically to `"node"` — the thread-worker pool,
never the web-worker pool — and the `auto` case is independent of both
runtime capability flags, so no capability probing takes place. -/
theorem createWorkerPool_auto_falls_through_to_node (t b t' b' : Bool) (w : Option String) :
    createWorkerPool ⟨some "auto", t, b⟩ w = createWorkerPool ⟨some "node", t, b⟩ w ∧
    createWorkerPool ⟨some "auto", t, b⟩ w = .ok (createThreadWorkerPool w) ∧
    createWorkerPool ⟨some "auto", t, b⟩ w ≠ .ok (createWebWorkerPool w) ∧
    createWorkerPool ⟨some "auto", t, b⟩ w = createWorkerPool ⟨some "auto", t', b'⟩ w := by
  refine ⟨rfl, rfl, ?_, rfl⟩
  simp [createWorkerPool, createThreadWorkerPool, createWebWorkerPool]

/-- C10: the helper worker installs exactly one handler, and that handler
routes every incoming request to the single `check` capability with the
received arguments forwarded positionally and in order. -/
theorem synckitWorker_single_handler (check : Checker) :
    (synckitWorkerInstalledHandlers check).length = 1 ∧
    ∀ h, h ∈ synckitWorkerInstalledHandlers check → ∀ args, h args = check args := by
  refine ⟨rfl, ?_⟩
  intro h hh args
  simp only [synckitWorkerInstalledHandlers, List.mem_singleton] at hh
  subst hh
  rfl

/-- C10 witness: the single installed handler agrees with the sample
Checker on a concrete argument list. -/
theorem synckitWorker_single_handler_witness :
    (synckitWorkerInstalledHandlers checkSample).length = 1 ∧
    ∃ h, h ∈ synckitWorkerInstalledHandlers checkSample ∧
      h ["(a)*", "g"] = checkSample ["(a)*", "g"] := by
  refine ⟨(synckitWorker_single_handler checkSample).1, ?_⟩
  refine ⟨fun args => synckitWorkerHandler checkSample args, List.Mem.head _, ?_⟩
  exact (synckitWorker_single_handler checkSample).2 _ (List.Mem.head _) ["(a)*", "g"]

end Recheck
